import Mathlib

/-
Shallow embedding of the event-driven task lifecycle of the AgenticWorkspace
repository: the TaskManager database layer (lib/database.ts), the planner
workflow (api/workflows/planner), the assessor workflow
(app/api/workflows/assessor/route.ts), the ML pattern analyzer
(api/workflows/ml-analyzer/route.ts) and the calendar analytics component
(AnalyticsCalendar).

Modelling conventions:
* JavaScript numbers (including epoch-millisecond timestamps) are embedded as
  exact rationals `ℚ`; `Math.round x` is `⌊x + 1/2⌋`.
* JS `a || b` on numbers treats `0`, `null` and `undefined` as falsy; this is
  `jsOrQ` below.  A nullable column is `Option ℚ` / `Option String`.
* SQL tables are lists of rows; Redis hashes are association lists; Redis
  streams are lists of typed events appended in program order.
* A thrown JS exception is an `Except` error value; state mutations performed
  before the throw are kept (they really happened).
-/

namespace AW

/-- JavaScript `Math.round`: round half toward positive infinity. -/
def jsRound (q : ℚ) : ℤ := ⌊q + 1/2⌋

/-- JS `x || d` for a nullable number `x`: `null`, `undefined` and `0` are
falsy and yield the default. -/
def jsOrQ (x : Option ℚ) (d : ℚ) : ℚ :=
  match x with
  | none => d
  | some q => if q = 0 then d else q

/-- JS truthiness filter for a nullable number: `0` collapses to `null`.
Used where the source writes `${x || null}`. -/
def numPresent (x : Option ℚ) : Option ℚ :=
  match x with
  | none => none
  | some q => if q = 0 then none else some q

/-- Task status enumeration (`status` column of `tasks`). -/
inductive Status where
  | todo | in_progress | blocked | done | cancelled
deriving Repr, DecidableEq

/-- JSON-ish values stored in a task's free-form `context` map.  The code
only ever stores numbers, strings, booleans and arrays of numbers there. -/
inductive JVal where
  | num (q : ℚ)
  | str (s : String)
  | bool (b : Bool)
  | numArr (xs : List ℚ)
deriving Repr, DecidableEq

/-- A task `context`: a JS object, i.e. an ordered string-keyed map. -/
abbrev Ctx := List (String × JVal)

/-- Lookup of a context key. -/
def ctxGet (c : Ctx) (k : String) : Option JVal :=
  (List.find? (fun p => p.1 = k) c).map (fun p => p.2)

/-- JS object-spread update `{...c, k: v}`: an existing key keeps its
position and gets the new value, a fresh key is appended. -/
def ctxSet (c : Ctx) (k : String) (v : JVal) : Ctx :=
  if (List.find? (fun p => p.1 = k) c).isSome then
    List.map (fun p => if p.1 = k then (p.1, v) else p) c
  else
    c ++ [(k, v)]

/-- A row of the `tasks` table (interface `Task` in lib/database.ts).
Timestamps are epoch milliseconds. -/
structure Task where
  id : Nat
  user_id : String
  parent_id : Option Nat
  title : String
  description : String
  status : Status
  priority : ℚ
  progress : ℚ
  estimated_hours : Option ℚ
  actual_hours : Option ℚ
  due_at : Option ℚ
  scheduled_at : Option ℚ
  started_at : Option ℚ
  completed_at : Option ℚ
  tags : List String
  context : Ctx
  created_at : ℚ
  updated_at : ℚ
deriving Repr, DecidableEq

/-- The `Partial<Task>` argument of `TaskManager.createTask`. -/
structure TaskData where
  title : String
  description : Option String := none
  parent_id : Option Nat := none
  priority : Option ℚ := none
  estimated_hours : Option ℚ := none
  due_at : Option ℚ := none
  tags : Option (List String) := none
  context : Option Ctx := none
deriving Repr, DecidableEq

/-- The `Partial<Task>` argument of `TaskManager.updateTask`; a `none`
field is `undefined` in JS and is filtered out of the SET clause. -/
structure TaskUpdates where
  title : Option String := none
  description : Option String := none
  status : Option Status := none
  priority : Option ℚ := none
  progress : Option ℚ := none
  estimated_hours : Option ℚ := none
  actual_hours : Option ℚ := none
  completed_at : Option ℚ := none
  started_at : Option ℚ := none
  context : Option Ctx := none
deriving Repr, DecidableEq

/-- A row of the `task_scores` table (interface `TaskScore`). -/
structure ScoreRow where
  task_id : Nat
  difficulty : ℚ
  innovation : ℚ
  quality : ℚ
  speed : ℚ
  overall_score : ℤ
  xp_earned : ℤ
  user_satisfaction : Option ℚ
  user_notes : Option String
  scored_at : ℚ
deriving Repr, DecidableEq

/-- The `scores` argument of `TaskManager.scoreTask`
(`Omit<TaskScore, 'task_id' | 'scored_at'>`). -/
structure ScoreInput where
  difficulty : ℚ
  innovation : ℚ
  quality : ℚ
  speed : ℚ
  overall_score : ℤ
  xp_earned : ℤ
  user_satisfaction : Option ℚ := none
  user_notes : Option String := none
deriving Repr, DecidableEq

/-- Hour bucket statistics of the ML analyzer (`hourlyStats[hour]` after
the averaging pass). -/
structure HourStat where
  hour : Nat
  count : Nat
  avgQuality : ℚ
  avgSpeed : ℚ
deriving Repr, DecidableEq

/-- Day-of-week bucket of the ML analyzer (`dayStats[day]`). -/
structure DayStat where
  day : Nat
  count : Nat
  avgProductivity : ℚ
deriving Repr, DecidableEq

/-- Difficulty bucket of the ML analyzer (`difficultyGroups[diff]`). -/
structure DiffGroup where
  difficulty : ℚ
  count : Nat
  avgTimeAccuracy : ℚ
  avgSatisfaction : ℚ
  confidence : ℚ
deriving Repr, DecidableEq

/-- An entry of `predictions.nextOptimalSlots`. -/
structure Slot where
  base : HourStat
  hoursFromNow : ℤ
  recommendationScore : ℚ
deriving Repr, DecidableEq

/-- Output of the ML analyzer's `generate-predictions` step. -/
structure Predictions where
  nextOptimalSlots : List Slot
  currentProductivity : ℚ
  recommendation : Option Slot
deriving Repr, DecidableEq

/-- Payloads stored through `TaskManager.storePattern`.  The two structured
payloads the ML analyzer persists; neither carries a `sample_size` field,
so the store's `patternData.sample_size || 1` always defaults to 1. -/
inductive PatternData where
  | scheduling (optimalHours : List HourStat) (dayStats : List DayStat)
      (lastUpdated : ℚ) (predictions : Option Predictions)
  | complexity (difficultyGroups : List DiffGroup) (lastUpdated : ℚ)
deriving Repr, DecidableEq

/-- A row of the `task_patterns` table, unique per (user_id, pattern_type). -/
structure PatternRow where
  user_id : String
  pattern_type : String
  pattern_data : PatternData
  confidence_score : ℚ
  sample_size : ℚ
deriving Repr, DecidableEq

/-- Typed rendering of the envelopes appended with `redis.xadd` onto the
`events:task` and `events:ml` streams.  `ts` is the `Date.now()` field. -/
inductive Ev where
  | taskCreated (taskId : Nat) (userId : String) (parentId : Option Nat) (ts : ℚ)
  | taskUpdated (taskId : Nat) (userId : String) (ts : ℚ)
  | taskCompleted (taskId : Nat) (userId : String) (completedAt : ℚ) (ts : ℚ)
  | taskScored (taskId : Nat) (userId : String) (xpEarned : ℤ) (overall : ℤ) (ts : ℚ)
  | metaPlanReady (taskId : Nat) (userId : String) (subtaskCount : Nat) (complexity : ℚ) (ts : ℚ)
deriving Repr, DecidableEq

/-- The persistent state the embedded operations act on: the Postgres
tables (`tasks`, `task_scores`, `task_patterns`), the Redis user stats
hashes (`user:{id}:stats` → `total_xp`), the ids whose `task:{id}` cache
hash got written, and the event stream.  `nextId` supplies fresh row ids. -/
structure World where
  tasks : List Task := []
  scores : List ScoreRow := []
  patterns : List PatternRow := []
  statsXp : List (String × ℤ) := []
  cacheWrites : List Nat := []
  events : List Ev := []
  nextId : Nat := 0
deriving Repr, DecidableEq

/-- Lookup of a user's `total_xp` field in the stats hash; an absent
field reads as 0. -/
def lookupXp (l : List (String × ℤ)) (uid : String) : ℤ :=
  ((List.find? (fun p => p.1 = uid) l).map (fun p => p.2)).getD 0

/-- Total XP currently recorded for a user (`HGET user:{id}:stats total_xp`). -/
def getXp (w : World) (uid : String) : ℤ :=
  lookupXp w.statsXp uid

/-- Redis `HINCRBY user:{uid}:stats total_xp n`: increments the field,
creating it at 0 when absent. -/
def incrXp (l : List (String × ℤ)) (uid : String) (n : ℤ) : List (String × ℤ) :=
  if (List.find? (fun p => p.1 = uid) l).isSome then
    List.map (fun p => if p.1 = uid then (p.1, p.2 + n) else p) l
  else
    l ++ [(uid, n)]

/-- Embeds `TaskManager.createTask`.  The INSERT names exactly the columns
(user_id, title, description, priority, estimated_hours, due_at, tags,
context) — `taskData.parent_id` is NOT one of them, so the inserted row
always has `parent_id` NULL.  Defaults follow the JS expressions:
`description || ''`, `priority || 3`, `estimated_hours || null`,
`tags || []` (an array is always truthy), `context || {}`.  Afterwards the
row is mirrored into the `task:{id}` cache hash and a TASK_CREATED event
is appended. -/
def createTask (userId : String) (td : TaskData) (now : ℚ) (w : World) :
    Task × World :=
  let task : Task :=
    { id := w.nextId
      user_id := userId
      parent_id := none
      title := td.title
      description := td.description.getD ""
      status := Status.todo
      priority := jsOrQ td.priority 3
      progress := 0
      estimated_hours := numPresent td.estimated_hours
      actual_hours := none
      due_at := td.due_at
      scheduled_at := none
      started_at := none
      completed_at := none
      tags := td.tags.getD []
      context := td.context.getD []
      created_at := now
      updated_at := now }
  (task,
    { w with
      tasks := w.tasks ++ [task]
      cacheWrites := w.cacheWrites ++ [task.id]
      events := w.events ++ [Ev.taskCreated task.id userId task.parent_id now]
      nextId := w.nextId + 1 })

/-- Application of an `updateTask` partial field set to a row, together
with the unconditional `updated_at = NOW()` stamp. -/
def applyUpdates (u : TaskUpdates) (now : ℚ) (t : Task) : Task :=
  { t with
    title := u.title.getD t.title
    description := u.description.getD t.description
    status := u.status.getD t.status
    priority := u.priority.getD t.priority
    progress := u.progress.getD t.progress
    estimated_hours := u.estimated_hours.orElse (fun _ => t.estimated_hours)
    actual_hours := u.actual_hours.orElse (fun _ => t.actual_hours)
    completed_at := u.completed_at.orElse (fun _ => t.completed_at)
    started_at := u.started_at.orElse (fun _ => t.started_at)
    context := u.context.getD t.context
    updated_at := now }

/-- Exception kinds `updateTask` can surface.  The source defines no
`ValidationError` class anywhere; on a missing row with a nonempty field
set the failure is the `TypeError` thrown when `task.user_id` is read off
the `undefined` returned row, and with an empty field set the string-built
query `UPDATE tasks SET , updated_at = NOW() ...` is invalid SQL and the
database call itself throws a syntax error. -/
inductive JsError where
  | typeError
  | syntaxError
  | validationError
deriving Repr, DecidableEq

/-- True when the partial field set has no defined field.  The source
then builds an empty `setClause`, so the query reads
`UPDATE tasks SET , updated_at = NOW() ...` and the database call throws
a syntax error before the cache write, the events and the row read. -/
def TaskUpdates.isEmpty (u : TaskUpdates) : Bool :=
  u.title.isNone && u.description.isNone && u.status.isNone &&
  u.priority.isNone && u.progress.isNone && u.estimated_hours.isNone &&
  u.actual_hours.isNone && u.completed_at.isNone && u.started_at.isNone &&
  u.context.isNone

/-- Embeds `TaskManager.updateTask`.  With an empty field set the
string-built UPDATE is invalid SQL and the database call throws a syntax
error with no effect at all.  Otherwise it runs the UPDATE (stamping
`updated_at`), takes the first returned row, writes the `task:{id}` cache
hash unconditionally, then appends the TASK_UPDATED event and — when the
update sets `status` to `done` and the returned row has a `completed_at` —
also a TASK_COMPLETED event.  When no row matched, the cache write has
already happened and building the TASK_UPDATED payload throws a TypeError
on `task.user_id`. -/
def updateTask (taskId : Nat) (u : TaskUpdates) (now : ℚ) (w : World) :
    World × Except JsError Task :=
  if u.isEmpty then (w, Except.error JsError.syntaxError) else
  let task? := (List.find? (fun t => t.id = taskId) w.tasks).map (applyUpdates u now)
  let w1 : World :=
    { w with
      tasks := List.map (fun t => if t.id = taskId then applyUpdates u now t else t) w.tasks
      cacheWrites := w.cacheWrites ++ [taskId] }
  match task? with
  | none => (w1, Except.error JsError.typeError)
  | some task =>
    let w2 := { w1 with events := w1.events ++ [Ev.taskUpdated taskId task.user_id now] }
    let w3 :=
      if u.status = some Status.done ∧ task.completed_at.isSome then
        { w2 with
          events := w2.events ++
            [Ev.taskCompleted taskId task.user_id (task.completed_at.getD 0) now] }
      else w2
    (w3, Except.ok task)

/-- The `task_scores` row a `scoreTask` call writes.
`user_satisfaction || null` collapses 0 to NULL. -/
def mkScoreRow (taskId : Nat) (s : ScoreInput) (now : ℚ) : ScoreRow :=
  { task_id := taskId
    difficulty := s.difficulty
    innovation := s.innovation
    quality := s.quality
    speed := s.speed
    overall_score := s.overall_score
    xp_earned := s.xp_earned
    user_satisfaction := numPresent s.user_satisfaction
    user_notes := s.user_notes
    scored_at := now }

/-- The `INSERT ... ON CONFLICT (task_id) DO UPDATE` of `scoreTask`:
replaces the row keyed by the same `task_id` or inserts a fresh one. -/
def upsertScore (row : ScoreRow) (scores : List ScoreRow) : List ScoreRow :=
  if (List.find? (fun r => r.task_id = row.task_id) scores).isSome then
    List.map (fun r => if r.task_id = row.task_id then row else r) scores
  else
    scores ++ [row]

/-- Embeds `TaskManager.scoreTask`.  Upserts the `task_scores` row keyed by
`task_id` (`ON CONFLICT (task_id) DO UPDATE` of every score column plus
`scored_at = NOW()`); then, when the task row exists, increments the
user's `total_xp` stat by `xp_earned` and appends a TASK_SCORED event. -/
def scoreTask (taskId : Nat) (s : ScoreInput) (now : ℚ) (w : World) : World :=
  let w1 := { w with scores := upsertScore (mkScoreRow taskId s now) w.scores }
  match List.find? (fun t => t.id = taskId) w.tasks with
  | none => w1
  | some t =>
    { w1 with
      statsXp := incrXp w1.statsXp t.user_id s.xp_earned
      events := w1.events ++
        [Ev.taskScored taskId t.user_id s.xp_earned s.overall_score now] }

/-- Embeds `TaskManager.storePattern`: upsert of `task_patterns` keyed by
(user_id, pattern_type).  The stored `sample_size` is
`patternData.sample_size || 1`; the payloads the analyzer passes carry no
such field, so it is always 1. -/
def storePattern (userId : String) (patternType : String) (pd : PatternData)
    (confidence : ℚ) (w : World) : World :=
  let row : PatternRow :=
    { user_id := userId
      pattern_type := patternType
      pattern_data := pd
      confidence_score := confidence
      sample_size := 1 }
  let hit := fun r : PatternRow => r.user_id = userId ∧ r.pattern_type = patternType
  { w with
    patterns :=
      if (List.find? (fun r => decide (hit r)) w.patterns).isSome then
        List.map (fun r => if hit r then row else r) w.patterns
      else
        w.patterns ++ [row] }

/-! Planner workflow (api/workflows/planner).  The parsed output of the
generative call (`analysis`) is an input of the embedding. -/

/-- A subtask descriptor inside the planner's parsed analysis. -/
structure SubtaskDescr where
  title : String
  description : Option String := none
  estimatedHours : Option ℚ := none
  tags : Option (List String) := none
  dependencies : Option (List ℚ) := none
deriving Repr, DecidableEq

/-- The planner's parsed complexity judgment. -/
structure Analysis where
  needsSubtasks : Bool
  reasoning : String := ""
  estimatedComplexity : ℚ := 0
  suggestedDuration : Option ℚ := none
  subtasks : List SubtaskDescr := []
deriving Repr, DecidableEq

/-- Result shape the planner workflow returns. -/
inductive PlannerResult where
  | skipped
  | success (subtasksCreated : Nat)
deriving Repr, DecidableEq

/-- The `create-subtasks` step: one `createTask` per recommended subtask,
in array order, with the context `{dependencies, plannedOrder,
parentComplexity}`; `plannedOrder` is the array index.  `parent_id:
taskId` is passed but `createTask`'s INSERT drops it. -/
def createSubtasks (taskId : Nat) (userId : String) (analysis : Analysis)
    (now : ℚ) (w : World) : List Task × World :=
  (analysis.subtasks.enum).foldl
    (fun (acc : List Task × World) (p : Nat × SubtaskDescr) =>
      let (index, st) := p
      let (newTask, w') := createTask userId
        { title := st.title
          description := st.description
          parent_id := some taskId
          estimated_hours := st.estimatedHours
          tags := some (st.tags.getD [])
          context := some
            [("dependencies", JVal.numArr (st.dependencies.getD [])),
             ("plannedOrder", JVal.num index),
             ("parentComplexity", JVal.num analysis.estimatedComplexity)] }
        now acc.2
      (acc.1 ++ [newTask], w'))
    ([], w)

/-- The planner workflow body.  Fetches the task; skips (no writes) when
it is missing or has a parent; otherwise, if the analysis recommends a
nonempty subtask list, creates the subtasks, updates the parent
(suggested duration and merged planning metadata) and emits
META_PLAN_READY; otherwise returns success with zero subtasks. -/
def plannerRun (taskId : Nat) (userId : String) (analysis : Analysis)
    (now : ℚ) (w : World) : PlannerResult × World :=
  match List.find? (fun t => t.id = taskId) w.tasks with
  | none => (PlannerResult.skipped, w)
  | some task =>
    if task.parent_id.isSome then (PlannerResult.skipped, w)
    else if analysis.needsSubtasks ∧ analysis.subtasks ≠ [] then
      let (created, w1) := createSubtasks taskId userId analysis now w
      let mergedCtx :=
        ctxSet (ctxSet (ctxSet (ctxSet task.context
          "planningCompleted" (JVal.bool true))
          "complexityScore" (JVal.num analysis.estimatedComplexity))
          "subtaskCount" (JVal.num created.length))
          "planningReasoning" (JVal.str analysis.reasoning)
      -- The parent row exists in w1 (subtask creation only appends), so
      -- this updateTask cannot hit the missing-row branch.
      let w2 := (updateTask taskId
        { estimated_hours := analysis.suggestedDuration
          context := some mergedCtx } now w1).1
      let w3 := { w2 with events := w2.events ++
        [Ev.metaPlanReady taskId userId created.length
          analysis.estimatedComplexity now] }
      (PlannerResult.success created.length, w3)
    else
      (PlannerResult.success 0, w)

/-! Assessor workflow (app/api/workflows/assessor/route.ts). -/

/-- Output of the `calculate-time-metrics` step. -/
structure TimeMetrics where
  estimatedHours : ℚ
  actualHours : ℚ
  speedRel : ℚ
  wasOnTime : Bool
deriving Repr, DecidableEq

/-- Pure part of `calculate-time-metrics`.  `estimatedMs` defaults a falsy
estimate to 1 hour but is used only when `completed_at` is absent;
`speedRatio` is `estimated / actual` when the estimate is truthy and
exactly 1 otherwise. -/
def timeMetricsOf (task : Task) : TimeMetrics :=
  let estimatedMs : ℚ := (jsOrQ task.estimated_hours 1) * 60 * 60 * 1000
  let actualMs : ℚ :=
    match task.completed_at with
    | some c => c - (task.started_at.getD task.created_at)
    | none => estimatedMs
  let actualHours := actualMs / (60 * 60 * 1000)
  let speedRel :=
    match numPresent task.estimated_hours with
    | some e => e / actualHours
    | none => 1
  { estimatedHours := jsOrQ task.estimated_hours 1
    actualHours := actualHours
    speedRel := speedRel
    wasOnTime := decide (speedRel ≥ 8/10) }

/-- The `calculate-time-metrics` step including its side effect: the
computed `actual_hours` is persisted back to the task via `updateTask`. -/
def assessorTimeStep (taskId : Nat) (task : Task) (now : ℚ) (w : World) :
    TimeMetrics × World :=
  let tm := timeMetricsOf task
  (tm, (updateTask taskId { actual_hours := some tm.actualHours } now w).1)

/-- The parsed four-dimension assessment returned by the generative call. -/
structure Assessment where
  difficulty : ℚ
  innovation : ℚ
  quality : ℚ
  speed : ℚ
deriving Repr, DecidableEq

/-- The `calculate-final-scores` overall score: weighted sum with weights
difficulty 3, innovation 3, quality 4, speed 2, divided by the total
weight 12, scaled by 20 and rounded. -/
def overallScore (a : Assessment) : ℤ :=
  jsRound ((a.difficulty * 3 + a.innovation * 3 + a.quality * 4 + a.speed * 2)
    / 12 * 20)

/-- The `calculate-final-scores` XP: base `round(overall / 10)`, then the
sequential bonus increments of the source. -/
def xpFor (overall : ℤ) (a : Assessment) (wasOnTime : Bool)
    (subtaskCount : Nat) : ℤ :=
  let xp := jsRound ((overall : ℚ) / 10)
  let xp := if a.innovation ≥ 5 then xp + 3 else xp
  let xp := if a.quality ≥ 5 then xp + 2 else xp
  let xp := if wasOnTime then xp + 1 else xp
  let xp := if subtaskCount > 0 then xp + 1 else xp
  xp

/-! ML pattern analyzer workflow (api/workflows/ml-analyzer/route.ts). -/

/-- A row of the `gather-historical-data` join: a completed task with its
score columns and the extracted completion hour / day of week. -/
structure MLTask where
  completion_hour : Nat
  completion_day : Nat
  quality : Option ℚ := none
  speed : Option ℚ := none
  overall_score : Option ℚ := none
  difficulty : Option ℚ := none
  estimated_hours : Option ℚ := none
  actual_hours : Option ℚ := none
  user_satisfaction : Option ℚ := none
deriving Repr, DecidableEq

/-- Stable insertion placing `x` after every element of larger-or-equal
key: a stable descending sort step, matching the JS stable
`sort((a, b) => keyB - keyA)`. -/
def insertDesc (key : α → ℚ) (x : α) : List α → List α
  | [] => [x]
  | y :: ys => if key y < key x then x :: y :: ys else y :: insertDesc key x ys

/-- Stable descending sort by a rational key. -/
def sortOnDesc (key : α → ℚ) (l : List α) : List α :=
  l.foldl (fun acc x => insertDesc key x acc) []

/-- Stable insertion placing `x` after every element of smaller-or-equal
key: a stable ascending sort step, matching `sort((a, b) => keyA - keyB)`. -/
def insertAsc (key : α → ℚ) (x : α) : List α → List α
  | [] => [x]
  | y :: ys => if key x < key y then x :: y :: ys else y :: insertAsc key x ys

/-- Stable ascending sort by a rational key. -/
def sortOnAsc (key : α → ℚ) (l : List α) : List α :=
  l.foldl (fun acc x => insertAsc key x acc) []

/-- The `hourlyStats` object after the averaging pass: per completion hour
with at least one task, the count and the means of `quality || 3` and
`speed || 3`.  A JS object with integer-like keys iterates in ascending
key order, hence the scan over hours 0–23. -/
def hourStatsOf (tasks : List MLTask) : List HourStat :=
  (List.range 24).filterMap (fun h =>
    let bucket := tasks.filter (fun t => t.completion_hour = h)
    if bucket.length = 0 then none
    else some
      { hour := h
        count := bucket.length
        avgQuality := (bucket.foldl (fun s t => s + jsOrQ t.quality 3) 0) / bucket.length
        avgSpeed := (bucket.foldl (fun s t => s + jsOrQ t.speed 3) 0) / bucket.length })

/-- The `optimalHours` ranking: buckets with at least 2 samples, sorted by
mean of (avgQuality + avgSpeed) / 2 descending, top 3. -/
def optimalHoursOf (tasks : List MLTask) : List HourStat :=
  ((sortOnDesc (fun s => (s.avgQuality + s.avgSpeed) / 2)
    ((hourStatsOf tasks).filter (fun s => s.count ≥ 2))).take 3)

/-- The `dayStats` object: per day of week, count and mean of
`overall_score || 50`. -/
def dayStatsOf (tasks : List MLTask) : List DayStat :=
  (List.range 7).filterMap (fun d =>
    let bucket := tasks.filter (fun t => t.completion_day = d)
    if bucket.length = 0 then none
    else some
      { day := d
        count := bucket.length
        avgProductivity :=
          (bucket.foldl (fun s t => s + jsOrQ t.overall_score 50) 0) / bucket.length })

/-- Output of the `analyze-completion-patterns` step when it produces one. -/
structure CompletionPatterns where
  optimalHours : List HourStat
  dayStats : List DayStat
  hourlyStats : List HourStat
  sampleSize : Nat
deriving Repr, DecidableEq

/-- The `analyze-completion-patterns` step: null below 5 historical
tasks, otherwise the hour/day statistics. -/
def completionPatternsOf (tasks : List MLTask) : Option CompletionPatterns :=
  if tasks.length < 5 then none
  else some
    { optimalHours := optimalHoursOf tasks
      dayStats := dayStatsOf tasks
      hourlyStats := hourStatsOf tasks
      sampleSize := tasks.length }

/-- The `analyze-complexity-patterns` step: tasks grouped by
`difficulty || 3`, per group count, mean capped time accuracy (summed only
over tasks with truthy estimated and actual hours, divided by the full
group count), mean `user_satisfaction || 3`, and confidence
min(count / 5, 1).  Groups are listed in ascending difficulty, matching
JS integer-like object-key ordering for the 1–5 difficulties that occur. -/
def complexityPatternsOf (tasks : List MLTask) : List DiffGroup :=
  let keys := sortOnAsc id ((tasks.map (fun t => jsOrQ t.difficulty 3)).dedup)
  keys.map (fun d =>
    let bucket := tasks.filter (fun t => jsOrQ t.difficulty 3 = d)
    let accSum := bucket.foldl
      (fun s t =>
        match numPresent t.estimated_hours, numPresent t.actual_hours with
        | some e, some a => s + min (e / a) 2
        | _, _ => s) 0
    { difficulty := d
      count := bucket.length
      avgTimeAccuracy := accSum / bucket.length
      avgSatisfaction :=
        (bucket.foldl (fun s t => s + jsOrQ t.user_satisfaction 3) 0) / bucket.length
      confidence := min ((bucket.length : ℚ) / 5) 1 })

/-- The `generate-predictions` step: null when there are no completion
patterns; otherwise the optimal slots annotated with wrapped
hours-from-now, sorted ascending, with the nearest slot as the
recommendation and the current day's mean productivity (`|| 50`). -/
def predictionsOf (cp : Option CompletionPatterns) (currentHour currentDay : Nat) :
    Option Predictions :=
  match cp with
  | none => none
  | some p =>
    let slots := sortOnAsc (fun s : Slot => (s.hoursFromNow : ℚ))
      (p.optimalHours.map (fun s =>
        { base := s
          hoursFromNow := ((s.hour : ℤ) - currentHour + 24) % 24
          recommendationScore := (s.avgQuality + s.avgSpeed) / 2 }))
    some
      { nextOptimalSlots := slots
        currentProductivity :=
          jsOrQ ((p.dayStats.find? (fun ds => ds.day = currentDay)).map
            (fun ds => ds.avgProductivity)) 50
        recommendation := slots.head? }

/-- The `update-patterns` step: persists `optimal_scheduling` only when
completion patterns exist (confidence min(sampleSize / 20, 1)), and
always persists `complexity_handling` with fixed confidence 0.8. -/
def updatePatternsStep (userId : String) (cp : Option CompletionPatterns)
    (groups : List DiffGroup) (preds : Option Predictions) (now : ℚ)
    (w : World) : World :=
  let w1 :=
    match cp with
    | some p =>
      storePattern userId "optimal_scheduling"
        (PatternData.scheduling p.optimalHours p.dayStats now preds)
        (min ((p.sampleSize : ℚ) / 20) 1) w
    | none => w
  storePattern userId "complexity_handling"
    (PatternData.complexity groups now) (8/10) w1

/-! Calendar analytics (AnalyticsCalendar component, `calculateAnalytics`). -/

/-- A task as seen by the calendar (only its status matters to the
velocity computation). -/
structure CalTask where
  status : Status
deriving Repr, DecidableEq

/-- A calendar day cell: its task list and the derived
`metrics.completed` count. -/
structure CalDay where
  tasks : List CalTask
  completed : ℚ
deriving Repr, DecidableEq

/-- Velocity trend direction. -/
inductive Trend where
  | up | down | stable
deriving Repr, DecidableEq

/-- The `velocity` part of `CalendarAnalytics`. -/
structure Velocity where
  daily : ℚ
  weekly : ℚ
  trend : Trend
deriving Repr, DecidableEq

/-- The slice `days.slice(-14)`: the trailing up-to-14 days. -/
def recent14 (days : List CalDay) : List CalDay :=
  days.drop (days.length - 14)

/-- Mean of `metrics.completed` over a week slice; the source always
divides by 7. -/
def weekAvg (l : List CalDay) : ℚ :=
  (l.foldl (fun s d => s + d.completed) 0) / 7

/-- The velocity portion of `calculateAnalytics`: daily velocity over the
trailing 14 days, weekly velocity = daily × 7, and the trend comparing
the second week (`slice(7,14)`) against the first (`slice(0,7)`) with
strict 1.1× / 0.9× thresholds. -/
def velocityOf (days : List CalDay) : Velocity :=
  let recentDays := recent14 days
  let completedCount := recentDays.foldl
    (fun (n : Nat) d => n + (d.tasks.filter (fun t => t.status = Status.done)).length) 0
  let dailyVelocity := (completedCount : ℚ) / (recentDays.length : ℚ)
  let firstWeekAvg := weekAvg (recentDays.take 7)
  let secondWeekAvg := weekAvg ((recentDays.drop 7).take 7)
  let trend :=
    if secondWeekAvg > firstWeekAvg * (11/10) then Trend.up
    else if secondWeekAvg < firstWeekAvg * (9/10) then Trend.down
    else Trend.stable
  { daily := dailyVelocity
    weekly := dailyVelocity * 7
    trend := trend }

/-- Modelled from the spec's words (§4.5, velocity trend), for comparison
with `velocityOf`: an 8-week (56-day) trailing window, mean daily
completions over the most recent 28 days versus the prior 28 days,
"up" when recent ≥ 1.15 × older, "down" when recent ≤ 0.85 × older,
else "stable". -/
def specTrend8w (days : List CalDay) : Trend :=
  let window := days.drop (days.length - 56)
  let older := window.take 28
  let recent := (window.drop 28).take 28
  let olderMean : ℚ := (older.foldl (fun (s : ℚ) d => s + d.completed) 0) / 28
  let recentMean : ℚ := (recent.foldl (fun (s : ℚ) d => s + d.completed) 0) / 28
  if recentMean ≥ olderMean * (23/20) then Trend.up
  else if recentMean ≤ olderMean * (17/20) then Trend.down
  else Trend.stable

/-! Helper lemmas shared by the claim theorems. -/

/-- Updating exactly the rows keyed `id0` with an id-preserving function
commutes with looking the key up. -/
theorem find?_update_row (l : List Task) (id0 : Nat) (f : Task → Task)
    (hf : ∀ t, (f t).id = t.id) :
    List.find? (fun t => t.id = id0)
        (List.map (fun t => if t.id = id0 then f t else t) l)
      = (List.find? (fun t => t.id = id0) l).map f := by
  induction l with
  | nil => rfl
  | cons a l ih =>
    by_cases h : a.id = id0
    · simp [h, hf]
    · simp [h, ih]

/-- Incrementing via `HINCRBY` adds to the looked-up value, treating an absent field as 0. -/
theorem lookupXp_incrXp (l : List (String × ℤ)) (uid : String) (n : ℤ) :
    lookupXp (incrXp l uid n) uid = lookupXp l uid + n := by
  induction l with
  | nil => simp [incrXp, lookupXp]
  | cons a l ih =>
    by_cases h : a.1 = uid
    · simp [incrXp, lookupXp, h]
    · by_cases h2 : (List.find? (fun p => p.1 = uid) l).isSome
      · simpa [incrXp, lookupXp, h, h2] using ih
      · simpa [incrXp, lookupXp, h, h2] using ih

/-- Replacing every row keyed like `row` yields that many copies of `row`
among the rows with that key. -/
theorem filter_map_upsert (scores : List ScoreRow) (row : ScoreRow) :
    List.filter (fun r => r.task_id = row.task_id)
        (List.map (fun r => if r.task_id = row.task_id then row else r) scores)
      = List.replicate
          (List.filter (fun r => r.task_id = row.task_id) scores).length row := by
  induction scores with
  | nil => rfl
  | cons a l ih =>
    by_cases h : a.task_id = row.task_id
    · simp [h, ih, List.replicate_succ]
    · simp [h, ih]

/-- On a table respecting the `task_id` uniqueness constraint, the
`scoreTask` upsert leaves exactly one row with that key: the new one. -/
theorem upsertScore_filter (row : ScoreRow) (scores : List ScoreRow)
    (h : (List.filter (fun r => r.task_id = row.task_id) scores).length ≤ 1) :
    List.filter (fun r => r.task_id = row.task_id) (upsertScore row scores)
      = [row] := by
  unfold upsertScore
  by_cases hf : (List.find? (fun r => r.task_id = row.task_id) scores).isSome
  · rw [if_pos hf, filter_map_upsert]
    have h1 : (List.filter (fun r => r.task_id = row.task_id) scores).length ≠ 0 := by
      intro h0
      rw [List.length_eq_zero] at h0
      rcases List.find?_isSome.mp hf with ⟨x, hx, hpx⟩
      have := List.filter_eq_nil_iff.mp h0 x hx
      simp_all
    interval_cases hl : (List.filter (fun r => r.task_id = row.task_id) scores).length
    · simp_all
    · simp
  · rw [if_neg hf]
    have hnil : List.filter (fun r => r.task_id = row.task_id) scores = [] := by
      rw [List.filter_eq_nil_iff]
      intro x hx
      intro hpx
      exact hf (List.find?_isSome.mpr ⟨x, hx, hpx⟩)
    simp [List.filter_append, hnil]

/-- A `scoreTask` call acts on the score table by the upsert alone. -/
theorem scoreTask_scores (taskId : Nat) (s : ScoreInput) (now : ℚ) (w : World) :
    (scoreTask taskId s now w).scores = upsertScore (mkScoreRow taskId s now) w.scores := by
  unfold scoreTask
  cases List.find? (fun t => t.id = taskId) w.tasks <;> rfl

/-- A `scoreTask` call never touches the task table. -/
theorem scoreTask_tasks (taskId : Nat) (s : ScoreInput) (now : ℚ) (w : World) :
    (scoreTask taskId s now w).tasks = w.tasks := by
  unfold scoreTask
  cases List.find? (fun t => t.id = taskId) w.tasks <;> rfl

/-- Any row of the pattern table after a `storePattern` upsert either has
the written pattern type or was already present. -/
theorem storePattern_mem (userId patternType : String) (pd : PatternData)
    (conf : ℚ) (w : World) (p : PatternRow)
    (hp : p ∈ (storePattern userId patternType pd conf w).patterns) :
    p.pattern_type = patternType ∨ p ∈ w.patterns := by
  unfold storePattern at hp
  by_cases hf :
      (List.find? (fun r => decide (r.user_id = userId ∧ r.pattern_type = patternType))
        w.patterns).isSome
  · simp only [hf, if_pos] at hp
    rcases List.mem_map.mp hp with ⟨r, hr, hrp⟩
    by_cases hit : r.user_id = userId ∧ r.pattern_type = patternType
    · left
      rw [← hrp]
      simp [hit]
    · right
      rw [← hrp]
      simpa [hit] using hr
  · simp only [hf, if_neg] at hp
    rcases List.mem_append.mp hp with h | h
    · right
      exact h
    · left
      simp at h
      rw [h]

/-- The written score row carries the call's task id. -/
theorem mkScoreRow_task_id (taskId : Nat) (s : ScoreInput) (now : ℚ) :
    (mkScoreRow taskId s now).task_id = taskId := rfl

/-- C2: for dimension scores each in 1–5, `overall_score` is the rounded
0–100 normalisation of the weighted average with weights difficulty 3,
innovation 3, quality 4, speed 2; it lies in [0, 100], is a function of
the four dimensions, and maps {5,5,5,5} to 100 and {1,1,1,1} to 20. -/
theorem c2_overall_score_bounds :
    (∀ a : Assessment,
        1 ≤ a.difficulty → a.difficulty ≤ 5 →
        1 ≤ a.innovation → a.innovation ≤ 5 →
        1 ≤ a.quality → a.quality ≤ 5 →
        1 ≤ a.speed → a.speed ≤ 5 →
        0 ≤ overallScore a ∧ overallScore a ≤ 100) ∧
    overallScore ⟨5, 5, 5, 5⟩ = 100 ∧ overallScore ⟨1, 1, 1, 1⟩ = 20 := by
  refine ⟨fun a h1 h2 h3 h4 h5 h6 h7 h8 => ⟨?_, ?_⟩, ?_, ?_⟩
  · rw [overallScore, jsRound]
    apply Int.le_floor.mpr
    push_cast
    linarith
  · rw [overallScore, jsRound]
    have hlt : ⌊(a.difficulty * 3 + a.innovation * 3 + a.quality * 4 + a.speed * 2)
        / 12 * 20 + 1/2⌋ < 101 := by
      apply Int.floor_lt.mpr
      push_cast
      linarith
    omega
  · norm_num [overallScore, jsRound]
  · norm_num [overallScore, jsRound]

/-- C2 witness: the theorem applied to the dimensions (2, 3, 4, 5). -/
theorem c2_overall_score_bounds_witness :
    (1 : ℚ) ≤ 2 ∧ (2 : ℚ) ≤ 5 ∧ (1 : ℚ) ≤ 3 ∧ (3 : ℚ) ≤ 5 ∧
    (1 : ℚ) ≤ 4 ∧ (4 : ℚ) ≤ 5 ∧ (1 : ℚ) ≤ 5 ∧ (5 : ℚ) ≤ 5 ∧
    (0 ≤ overallScore ⟨2, 3, 4, 5⟩ ∧ overallScore ⟨2, 3, 4, 5⟩ ≤ 100) :=
  ⟨by norm_num, by norm_num, by norm_num, by norm_num,
   by norm_num, by norm_num, by norm_num, by norm_num,
   c2_overall_score_bounds.1 ⟨2, 3, 4, 5⟩ (by norm_num) (by norm_num)
     (by norm_num) (by norm_num) (by norm_num) (by norm_num)
     (by norm_num) (by norm_num)⟩

/-- C3: xp is round(overall / 10) plus independently additive bonuses
(+3 innovation ≥ 5, +2 quality ≥ 5, +1 on time, +1 any subtasks); the
worked example with overall 80 and all bonuses gives 8 + 3 + 2 + 1 + 1 = 15. -/
theorem c3_xp_formula :
    (∀ (overall : ℤ) (a : Assessment) (onTime : Bool) (n : Nat),
        xpFor overall a onTime n =
          jsRound ((overall : ℚ) / 10)
            + (if a.innovation ≥ 5 then 3 else 0)
            + (if a.quality ≥ 5 then 2 else 0)
            + (if onTime then 1 else 0)
            + (if n > 0 then 1 else 0)) ∧
    overallScore ⟨3, 5, 5, 2⟩ = 80 ∧
    jsRound ((80 : ℚ) / 10) = 8 ∧
    xpFor 80 ⟨3, 5, 5, 2⟩ true 1 = 15 := by
  refine ⟨fun overall a onTime n => ?_, ?_, ?_, ?_⟩
  · rw [xpFor]
    split_ifs <;> ring
  · norm_num [overallScore, jsRound]
  · norm_num [jsRound]
  · norm_num [xpFor, jsRound]

/-- Two consecutive `scoreTask` upserts for one task id leave exactly the
latest row, provided the table respected the uniqueness constraint. -/
theorem scoreTask_twice_filter (w : World) (taskId : Nat) (s1 s2 : ScoreInput)
    (t1 t2 : ℚ)
    (h : (List.filter (fun r => r.task_id = taskId) w.scores).length ≤ 1) :
    List.filter (fun r => r.task_id = taskId)
        (scoreTask taskId s2 t2 (scoreTask taskId s1 t1 w)).scores
      = [mkScoreRow taskId s2 t2] := by
  rw [scoreTask_scores, scoreTask_scores]
  have h1 := upsertScore_filter (mkScoreRow taskId s1 t1) w.scores
    (by simpa [mkScoreRow_task_id] using h)
  rw [mkScoreRow_task_id] at h1
  have h2 := upsertScore_filter (mkScoreRow taskId s2 t2)
    (upsertScore (mkScoreRow taskId s1 t1) w.scores)
    (by rw [mkScoreRow_task_id, h1]; simp)
  rw [mkScoreRow_task_id] at h2
  exact h2

/-- C5: two `scoreTask` calls for the same task id leave exactly one
score row with that id, the one written by the latest call. -/
theorem c5_scoreTask_upsert :
    ∀ (w : World) (taskId : Nat) (s1 s2 : ScoreInput) (t1 t2 : ℚ),
      (List.filter (fun r => r.task_id = taskId) w.scores).length ≤ 1 →
      List.filter (fun r => r.task_id = taskId)
          (scoreTask taskId s2 t2 (scoreTask taskId s1 t1 w)).scores
        = [mkScoreRow taskId s2 t2] := by
  intro w taskId s1 s2 t1 t2 h
  exact scoreTask_twice_filter w taskId s1 s2 t1 t2 h

/-- C5 witness: re-scoring task 0 of an empty store keeps one row. -/
theorem c5_scoreTask_upsert_witness :
    (List.filter (fun r => r.task_id = 0) (World.mk [] [] [] [] [] [] 0).scores).length ≤ 1 ∧
    List.filter (fun r => r.task_id = 0)
        (scoreTask 0 ⟨4, 4, 4, 4, 90, 9, none, none⟩ 2
          (scoreTask 0 ⟨3, 3, 3, 3, 60, 6, none, none⟩ 1
            (World.mk [] [] [] [] [] [] 0))).scores
      = [mkScoreRow 0 ⟨4, 4, 4, 4, 90, 9, none, none⟩ 2] :=
  ⟨by simp,
   c5_scoreTask_upsert (World.mk [] [] [] [] [] [] 0) 0
     ⟨3, 3, 3, 3, 60, 6, none, none⟩ ⟨4, 4, 4, 4, 90, 9, none, none⟩ 1 2 (by simp)⟩

/-- A `scoreTask` call on a found task: the stats and event effects. -/
theorem scoreTask_found (w : World) (taskId : Nat) (s : ScoreInput) (now : ℚ)
    (t : Task) (hf : List.find? (fun tk => tk.id = taskId) w.tasks = some t) :
    (scoreTask taskId s now w).statsXp = incrXp w.statsXp t.user_id s.xp_earned ∧
    (scoreTask taskId s now w).events
      = w.events ++ [Ev.taskScored taskId t.user_id s.xp_earned s.overall_score now] := by
  rw [scoreTask]
  rw [hf]
  exact ⟨rfl, rfl⟩

/-- C6: every `scoreTask` call on an existing task adds its `xp_earned`
to the user's cumulative counter and appends a TASK_SCORED event, also
on a re-score — the XP effect accumulates while the score row stays
unique. -/
theorem c6_scoreTask_xp_accumulates :
    ∀ (w : World) (taskId : Nat) (s1 s2 : ScoreInput) (t1 t2 : ℚ) (t : Task),
      List.find? (fun tk => tk.id = taskId) w.tasks = some t →
      (List.filter (fun r => r.task_id = taskId) w.scores).length ≤ 1 →
      getXp (scoreTask taskId s1 t1 w) t.user_id
          = getXp w t.user_id + s1.xp_earned ∧
      (scoreTask taskId s1 t1 w).events
          = w.events ++ [Ev.taskScored taskId t.user_id s1.xp_earned s1.overall_score t1] ∧
      getXp (scoreTask taskId s2 t2 (scoreTask taskId s1 t1 w)) t.user_id
          = getXp w t.user_id + s1.xp_earned + s2.xp_earned ∧
      (scoreTask taskId s2 t2 (scoreTask taskId s1 t1 w)).events
          = (scoreTask taskId s1 t1 w).events
            ++ [Ev.taskScored taskId t.user_id s2.xp_earned s2.overall_score t2] ∧
      (List.filter (fun r => r.task_id = taskId)
          (scoreTask taskId s2 t2 (scoreTask taskId s1 t1 w)).scores).length = 1 := by
  intro w taskId s1 s2 t1 t2 t hf hu
  have hf1 : List.find? (fun tk => tk.id = taskId) (scoreTask taskId s1 t1 w).tasks
      = some t := by rw [scoreTask_tasks]; exact hf
  obtain ⟨hstats1, hev1⟩ := scoreTask_found w taskId s1 t1 t hf
  obtain ⟨hstats2, hev2⟩ := scoreTask_found (scoreTask taskId s1 t1 w) taskId s2 t2 t hf1
  refine ⟨?_, hev1, ?_, hev2, ?_⟩
  · rw [getXp, getXp, hstats1, lookupXp_incrXp]
  · rw [getXp, getXp, hstats2, lookupXp_incrXp, hstats1, lookupXp_incrXp]
  · rw [scoreTask_twice_filter w taskId s1 s2 t1 t2 hu]
    rfl

/-- C6 witness: scoring then re-scoring task 7 owned by user u7. -/
theorem c6_scoreTask_xp_accumulates_witness :
    List.find? (fun tk => tk.id = 7)
        (World.mk [Task.mk 7 "u7" none "t" "" Status.done 3 0 none none none
          none none (some 3600000) [] [] 0 0] [] [] [] [] [] 8).tasks
      = some (Task.mk 7 "u7" none "t" "" Status.done 3 0 none none none
          none none (some 3600000) [] [] 0 0) ∧
    getXp (scoreTask 7 ⟨3, 3, 3, 3, 60, 6, none, none⟩ 1
        (World.mk [Task.mk 7 "u7" none "t" "" Status.done 3 0 none none none
          none none (some 3600000) [] [] 0 0] [] [] [] [] [] 8)) "u7"
      = getXp (World.mk [Task.mk 7 "u7" none "t" "" Status.done 3 0 none none none
          none none (some 3600000) [] [] 0 0] [] [] [] [] [] 8) "u7" + 6 :=
  ⟨by simp,
   (c6_scoreTask_xp_accumulates
     (World.mk [Task.mk 7 "u7" none "t" "" Status.done 3 0 none none none
       none none (some 3600000) [] [] 0 0] [] [] [] [] [] 8)
     7 ⟨3, 3, 3, 3, 60, 6, none, none⟩ ⟨4, 4, 4, 4, 90, 9, none, none⟩ 1 2
     (Task.mk 7 "u7" none "t" "" Status.done 3 0 none none none
       none none (some 3600000) [] [] 0 0)
     (by simp) (by simp)).1⟩

/-- C7: the planner skips — returning `skipped` and writing nothing —
whenever the task is missing or has a parent. -/
theorem c7_planner_skips :
    ∀ (w : World) (taskId : Nat) (userId : String) (analysis : Analysis) (now : ℚ),
      (List.find? (fun t => t.id = taskId) w.tasks = none ∨
        ∃ t, List.find? (fun t => t.id = taskId) w.tasks = some t ∧
          t.parent_id.isSome) →
      plannerRun taskId userId analysis now w = (PlannerResult.skipped, w) := by
  intro w taskId userId analysis now h
  rcases h with h | ⟨t, hf, hp⟩
  · rw [plannerRun, h]
  · rw [plannerRun, hf]
    simp [hp]

/-- C7 witness: the planner invoked on subtask 1 (child of task 0). -/
theorem c7_planner_skips_witness :
    (List.find? (fun t => t.id = 1)
        (World.mk [Task.mk 1 "u1" (some 0) "sub" "" Status.todo 3 0 none none
          none none none none [] [] 0 0] [] [] [] [] [] 2).tasks
      = some (Task.mk 1 "u1" (some 0) "sub" "" Status.todo 3 0 none none
          none none none none [] [] 0 0)) ∧
    plannerRun 1 "u1" ⟨true, "r", 3, none, []⟩ 9
        (World.mk [Task.mk 1 "u1" (some 0) "sub" "" Status.todo 3 0 none none
          none none none none [] [] 0 0] [] [] [] [] [] 2)
      = (PlannerResult.skipped,
          World.mk [Task.mk 1 "u1" (some 0) "sub" "" Status.todo 3 0 none none
            none none none none [] [] 0 0] [] [] [] [] [] 2) :=
  ⟨by simp,
   c7_planner_skips
     (World.mk [Task.mk 1 "u1" (some 0) "sub" "" Status.todo 3 0 none none
       none none none none [] [] 0 0] [] [] [] [] [] 2)
     1 "u1" ⟨true, "r", 3, none, []⟩ 9
     (Or.inr ⟨Task.mk 1 "u1" (some 0) "sub" "" Status.todo 3 0 none none
       none none none none [] [] 0 0, by simp, by simp⟩)⟩

/-- C9: below 5 historical completed tasks the completion-pattern stage
yields null and the `update-patterns` step persists no
`optimal_scheduling` pattern (any such row predates the step). -/
theorem c9_ml_minimum_sample :
    ∀ (tasks : List MLTask) (userId : String) (preds : Option Predictions)
      (now : ℚ) (w : World),
      tasks.length < 5 →
      completionPatternsOf tasks = none ∧
      ∀ p ∈ (updatePatternsStep userId (completionPatternsOf tasks)
          (complexityPatternsOf tasks) preds now w).patterns,
        p.pattern_type = "optimal_scheduling" → p ∈ w.patterns := by
  intro tasks userId preds now w h
  have hcp : completionPatternsOf tasks = none := by
    simp [completionPatternsOf, h]
  refine ⟨hcp, ?_⟩
  intro p hp hty
  rw [hcp] at hp
  simp only [updatePatternsStep] at hp
  rcases storePattern_mem _ _ _ _ _ _ hp with h1 | h1
  · rw [hty] at h1
    simp at h1
  · exact h1

/-- C9 witness: four historical tasks produce no completion patterns. -/
theorem c9_ml_minimum_sample_witness :
    (List.replicate 4 (MLTask.mk 9 1 none none none none none none none)).length < 5 ∧
    completionPatternsOf
        (List.replicate 4 (MLTask.mk 9 1 none none none none none none none))
      = none :=
  ⟨by simp,
   (c9_ml_minimum_sample
     (List.replicate 4 (MLTask.mk 9 1 none none none none none none none))
     "u9" none 0 (World.mk [] [] [] [] [] [] 0) (by simp)).1⟩

/-- An `updateTask` call with a nonempty field set rewrites exactly the
rows keyed by the task id, whichever branch is taken afterwards. -/
theorem updateTask_tasks (taskId : Nat) (u : TaskUpdates) (now : ℚ) (w : World)
    (hne : u.isEmpty = false) :
    (updateTask taskId u now w).1.tasks
      = List.map (fun t => if t.id = taskId then applyUpdates u now t else t) w.tasks := by
  rw [updateTask, if_neg (by simp [hne])]
  cases (List.find? (fun t => t.id = taskId) w.tasks).map (applyUpdates u now) with
  | none => rfl
  | some task => by_cases h : u.status = some Status.done ∧ task.completed_at.isSome <;> simp [h]

/-- C4 (amended): with a nonempty field set, `updateTask` stamps
`updated_at`, always emits TASK_UPDATED, emits TASK_COMPLETED exactly
when the update sets status `done` and the resulting row has a completion
timestamp, and on a missing task id fails with a TypeError — the source
has no ValidationError; with an empty field set the string-built SQL is
invalid and the call fails with a database syntax error, touching
nothing. -/
theorem c4_updateTask_behaviour :
    ∀ (w : World) (taskId : Nat) (u : TaskUpdates) (now : ℚ),
      (u.isEmpty = false →
        (∀ t, List.find? (fun tk => tk.id = taskId) w.tasks = some t →
          (updateTask taskId u now w).2 = Except.ok (applyUpdates u now t) ∧
          (applyUpdates u now t).updated_at = now ∧
          List.find? (fun tk => tk.id = taskId) (updateTask taskId u now w).1.tasks
            = some (applyUpdates u now t) ∧
          (updateTask taskId u now w).1.events
            = w.events
              ++ [Ev.taskUpdated taskId (applyUpdates u now t).user_id now]
              ++ (if u.status = some Status.done ∧ (applyUpdates u now t).completed_at.isSome
                  then [Ev.taskCompleted taskId (applyUpdates u now t).user_id
                          ((applyUpdates u now t).completed_at.getD 0) now]
                  else [])) ∧
        (List.find? (fun tk => tk.id = taskId) w.tasks = none →
          (updateTask taskId u now w).2 = Except.error JsError.typeError)) ∧
      (u.isEmpty = true →
        (updateTask taskId u now w).2 = Except.error JsError.syntaxError ∧
        (updateTask taskId u now w).1 = w) := by
  intro w taskId u now
  constructor
  · intro hne
    constructor
    · intro t hf
      refine ⟨?_, rfl, ?_, ?_⟩
      · rw [updateTask, if_neg (by simp [hne]), hf]
        by_cases h : u.status = some Status.done ∧ (applyUpdates u now t).completed_at.isSome <;>
          simp [h]
      · rw [updateTask_tasks taskId u now w hne,
          find?_update_row w.tasks taskId (applyUpdates u now) (fun _ => rfl), hf]
        rfl
      · rw [updateTask, if_neg (by simp [hne]), hf]
        by_cases h : u.status = some Status.done ∧ (applyUpdates u now t).completed_at.isSome <;>
          simp [h]
    · intro hf
      rw [updateTask, if_neg (by simp [hne]), hf]
      rfl
  · intro he
    rw [updateTask, if_pos (by simp [he])]
    exact ⟨rfl, rfl⟩

/-- C4 fixture: a task mid-flight. -/
def c4Task : Task :=
  ⟨2, "u2", none, "t", "", Status.in_progress, 3, 0, none, none, none, none,
    some 10, none, [], [], 0, 0⟩

/-- C4 fixture: its world. -/
def c4World : World := ⟨[c4Task], [], [], [], [], [], 3⟩

/-- C4 fixture: a completing update. -/
def c4Updates : TaskUpdates := { status := some Status.done, completed_at := some 50 }

/-- C4 witness: completing task 2 returns the stamped row. -/
theorem c4_updateTask_behaviour_witness :
    TaskUpdates.isEmpty c4Updates = false ∧
    List.find? (fun tk => tk.id = 2) c4World.tasks = some c4Task ∧
    (updateTask 2 c4Updates 99 c4World).2 = Except.ok (applyUpdates c4Updates 99 c4Task) :=
  ⟨rfl, by simp [c4World, c4Task],
   (((c4_updateTask_behaviour c4World 2 c4Updates 99).1 rfl).1 c4Task
     (by simp [c4World, c4Task])).1⟩

/-- C4 counterexample: marking an unknown task id done (a nonempty
update, so the SQL runs and returns no row), `updateTask` fails with a
TypeError, not with a ValidationError. -/
theorem c4_no_validation_error :
    (updateTask 0 { status := some Status.done } 0 (World.mk [] [] [] [] [] [] 0)).2
        = Except.error JsError.typeError ∧
    (updateTask 0 { status := some Status.done } 0 (World.mk [] [] [] [] [] [] 0)).2
        ≠ Except.error JsError.validationError := by
  constructor <;> simp [updateTask, TaskUpdates.isEmpty]

/-- C8 (amended): for a completed task, actual duration is
`completed_at − (started_at or created_at)`; the speed ratio is
estimate / actual when an estimate is present (and nonzero), and exactly
1 when the estimate is missing; on-time holds iff the ratio is ≥ 0.8;
the computed actual hours are persisted back to the task row. -/
theorem c8_time_metrics :
    ∀ (task : Task) (c : ℚ),
      task.completed_at = some c →
      ((timeMetricsOf task).actualHours
          = (c - task.started_at.getD task.created_at) / (60 * 60 * 1000)) ∧
      (task.estimated_hours = none → (timeMetricsOf task).speedRel = 1) ∧
      (∀ e, task.estimated_hours = some e → e ≠ 0 →
        (timeMetricsOf task).speedRel = e / (timeMetricsOf task).actualHours) ∧
      ((timeMetricsOf task).wasOnTime = true ↔ (timeMetricsOf task).speedRel ≥ 8/10) ∧
      (∀ (w : World) (now : ℚ),
        List.find? (fun tk => tk.id = task.id) w.tasks = some task →
        ((List.find? (fun tk => tk.id = task.id)
            (assessorTimeStep task.id task now w).2.tasks).map
          (fun tk => tk.actual_hours))
          = some (some (timeMetricsOf task).actualHours)) := by
  intro task c hc
  refine ⟨?_, ?_, ?_, ?_, ?_⟩
  · simp only [timeMetricsOf, hc]
  · intro he
    simp only [timeMetricsOf, he, numPresent]
  · intro e he hne
    simp only [timeMetricsOf, hc, he, numPresent]
    simp [hne]
  · simp only [timeMetricsOf]
    simp
  · intro w now hf
    simp only [assessorTimeStep]
    rw [updateTask_tasks task.id
        { actual_hours := some (timeMetricsOf task).actualHours } now w rfl,
      find?_update_row w.tasks task.id (applyUpdates _ now) (fun _ => rfl), hf]
    rfl

/-- C8 fixture: a completed task without an estimate that took 2 hours. -/
def c8Task : Task :=
  ⟨3, "u3", none, "t", "", Status.done, 3, 0, none, none, none, none,
    some 0, some 7200000, [], [], 0, 0⟩

/-- C8 fixture: a completed task with a 1-hour estimate that took 2 hours. -/
def c8TaskB : Task :=
  ⟨4, "u3", none, "t", "", Status.done, 3, 0, some 1, none, none, none,
    some 0, some 7200000, [], [], 0, 0⟩

/-- C8 witness: the theorem applied to the estimated 2-hour task. -/
theorem c8_time_metrics_witness :
    c8TaskB.completed_at = some 7200000 ∧
    (timeMetricsOf c8TaskB).actualHours
      = ((7200000 : ℚ) - c8TaskB.started_at.getD c8TaskB.created_at) / (60 * 60 * 1000) :=
  ⟨rfl, (c8_time_metrics c8TaskB 7200000 rfl).1⟩

/-- C8 counterexample: with a missing estimate the code's speed ratio is
the constant 1, not the claimed quotient of a 1-hour default estimate by
the actual hours (here 1/2). -/
theorem c8_missing_estimate_ratio :
    (timeMetricsOf c8Task).speedRel = 1 ∧
    (timeMetricsOf c8Task).actualHours = 2 ∧
    jsOrQ c8Task.estimated_hours 1 / (timeMetricsOf c8Task).actualHours = 1/2 ∧
    (timeMetricsOf c8Task).speedRel
      ≠ jsOrQ c8Task.estimated_hours 1 / (timeMetricsOf c8Task).actualHours := by
  refine ⟨?_, ?_, ?_, ?_⟩ <;>
    norm_num [timeMetricsOf, c8Task, jsOrQ, numPresent]

/-- A calendar day with `c` completed tasks. -/
def mkDay (c : Nat) : CalDay := ⟨List.replicate c ⟨Status.done⟩, c⟩

/-- C10 fixture: 14 days whose week means have ratio 10/8 = 1.25. -/
def c10DaysUp : List CalDay :=
  List.map mkDay [8, 0, 0, 0, 0, 0, 0, 10, 0, 0, 0, 0, 0, 0]

/-- C10 fixture: 14 days whose week means have ratio 6/8 = 0.75. -/
def c10DaysDown : List CalDay :=
  List.map mkDay [8, 0, 0, 0, 0, 0, 0, 6, 0, 0, 0, 0, 0, 0]

/-- C10 fixture: 14 days whose week means have ratio 1. -/
def c10DaysStable : List CalDay :=
  List.map mkDay [8, 0, 0, 0, 0, 0, 0, 8, 0, 0, 0, 0, 0, 0]

/-- C10 (amended): the trend compares the mean daily completions of the
last 7 of the trailing 14 days against the preceding 7, with strict
1.1× / 0.9× thresholds; ratios 1.25, 0.75 and 1.0 give up, down and
stable. -/
theorem c10_velocity_trend :
    (∀ days : List CalDay,
      ((velocityOf days).trend = Trend.up ↔
        weekAvg (List.take 7 (List.drop 7 (recent14 days)))
          > weekAvg (List.take 7 (recent14 days)) * (11/10)) ∧
      ((velocityOf days).trend = Trend.down ↔
        (¬ weekAvg (List.take 7 (List.drop 7 (recent14 days)))
            > weekAvg (List.take 7 (recent14 days)) * (11/10) ∧
          weekAvg (List.take 7 (List.drop 7 (recent14 days)))
            < weekAvg (List.take 7 (recent14 days)) * (9/10))) ∧
      ((velocityOf days).trend = Trend.stable ↔
        (¬ weekAvg (List.take 7 (List.drop 7 (recent14 days)))
            > weekAvg (List.take 7 (recent14 days)) * (11/10) ∧
          ¬ weekAvg (List.take 7 (List.drop 7 (recent14 days)))
            < weekAvg (List.take 7 (recent14 days)) * (9/10)))) ∧
    (velocityOf c10DaysUp).trend = Trend.up ∧
    (velocityOf c10DaysDown).trend = Trend.down ∧
    (velocityOf c10DaysStable).trend = Trend.stable := by
  refine ⟨fun days => ?_, ?_, ?_, ?_⟩
  · simp only [velocityOf]
    split_ifs with h1 h2 <;> simp_all
  · norm_num [velocityOf, recent14, weekAvg, c10DaysUp, mkDay]
  · norm_num [velocityOf, recent14, weekAvg, c10DaysDown, mkDay]
  · norm_num [velocityOf, recent14, weekAvg, c10DaysStable, mkDay]

/-- C10 counterexample: 56 days on which the most recent 28-day mean
equals the prior 28-day mean — "stable" under the claimed 8-week rule —
while the code reports "up" from its actual 14-day window. -/
def c10Days56 : List CalDay :=
  List.map mkDay (List.replicate 42 1 ++ [5, 0, 0, 0, 0, 0, 0, 9, 0, 0, 0, 0, 0, 0])

/-- C10 counterexample theorem: the claimed 8-week rule and the code
disagree on `c10Days56`. -/
theorem c10_trend_window_mismatch :
    specTrend8w c10Days56 = Trend.stable ∧
    (velocityOf c10Days56).trend = Trend.up := by
  constructor <;>
    norm_num [specTrend8w, velocityOf, recent14, weekAvg, c10Days56, mkDay,
      List.replicate]

/-- C1 fixture: a root task awaiting planning. -/
def c1Root : Task :=
  ⟨0, "u1", none, "root", "", Status.todo, 3, 0, some 5, none, none, none,
    none, none, [], [], 0, 0⟩

/-- C1 fixture: its world. -/
def c1World : World := ⟨[c1Root], [], [], [], [], [], 1⟩

/-- C1 fixture: an analysis recommending one subtask. -/
def c1Analysis : Analysis :=
  { needsSubtasks := true
    reasoning := "split"
    estimatedComplexity := 3
    suggestedDuration := some 2
    subtasks := [⟨"s1", some "d1", some 1, some ["t"], some []⟩] }

/-- C1: planning the root task 0 creates its one recommended subtask in
order, carrying `dependencies`, `plannedOrder` = 0 and `parentComplexity`
in its context — but the created row's `parent_id` is NULL, not 0: the
planner passes `parent_id: taskId` to `createTask`, whose INSERT column
list omits `parent_id`. -/
theorem c1_subtask_parent_dropped :
    (plannerRun 0 "u1" c1Analysis 5 c1World).1 = PlannerResult.success 1 ∧
    List.map (fun t => (t.id, t.parent_id, ctxGet t.context "dependencies",
        ctxGet t.context "plannedOrder", ctxGet t.context "parentComplexity"))
      (plannerRun 0 "u1" c1Analysis 5 c1World).2.tasks
      = [(0, none, none, none, none),
         (1, none, some (JVal.numArr []), some (JVal.num 0), some (JVal.num 3))] := by
  constructor <;>
    simp [plannerRun, c1World, c1Analysis, c1Root, createSubtasks, createTask,
      updateTask, TaskUpdates.isEmpty, applyUpdates, ctxGet, ctxSet, jsOrQ,
      numPresent]

end AW
